import Mathlib

/-!
Shallow embedding of `nightfly`'s error module (`src/error.rs`): the closed
error taxonomy `Kind`, the local-only cause chain (`BoxError` sources), the
`Error` value with its predicates, URL attachment, `Display`, `Clone`, and
the serde wire form that skips the `source` field.
-/

namespace Nightfly

/-- URLs are modelled by their string form (`Url::as_str`). -/
abbrev Url := String

/-- A boxed dynamic error (`BoxError = Box<dyn StdError + Send + Sync>`)
that can sit in an `Error`'s cause chain.  `timedOut` is the sentinel
`TimedOut` marker type, `badScheme` the fixed `BadScheme` marker; `wrapS`
is any other error object carrying a display string and a source
(`StdError::source` returning `Some`), `wrapN` one whose source is `None`. -/
inductive Cause where
  | timedOut : Cause
  | badScheme : Cause
  | wrapS : String → Cause → Cause
  | wrapN : String → Cause
  deriving DecidableEq, Repr

/-- Models `StdError::source` of a cause object.  `TimedOut` and
`BadScheme` use the default implementation (`None`). -/
def Cause.sourceOf : Cause → Option Cause
  | .timedOut => none
  | .badScheme => none
  | .wrapS _ s => some s
  | .wrapN _ => none

/-- The dynamic type test `err.is::<TimedOut>()`: true exactly on the
sentinel `TimedOut` marker value. -/
def Cause.isTimedOutMarker : Cause → Bool
  | .timedOut => true
  | _ => false

/-- Models `fmt::Display` of a cause object.  `TimedOut` writes
"operation timed out", `BadScheme` writes "URL scheme is not allowed";
a wrapper displays only its own message, not its sources. -/
def Cause.displayStr : Cause → String
  | .timedOut => "operation timed out"
  | .badScheme => "URL scheme is not allowed"
  | .wrapS d _ => d
  | .wrapN d => d

/-- The closed error taxonomy `Kind` from `src/error.rs`.  The `Status`
payload is the raw `u16` (a `Nat` here); serde deserialization accepts any
`u16`, so no range invariant is part of the type. -/
inductive Kind where
  | Builder : Kind
  | Request : Kind
  | Redirect : Kind
  | Status : Nat → Kind
  | Body : Kind
  | Decode : Kind
  | Serialization : Kind
  deriving DecidableEq, Repr

/-- The derived `Clone` on `Kind` is the identity. -/
def Kind.clone (k : Kind) : Kind := k

/-- Models `nightfly::Error`.  The `Box<Inner>` indirection is flattened:
the fields are exactly `Inner`'s `kind`, `source` (the optional cause) and
`url`. -/
structure Error where
  kind : Kind
  source : Option Cause
  url : Option Url
  deriving DecidableEq, Repr

/-- Models `Error::new(kind, source)`: `url` starts empty. -/
def Error.new (kind : Kind) (source : Option Cause) : Error :=
  { kind := kind, source := source, url := none }

/-- The `Error::url()` accessor (modulo the reference). -/
def Error.urlOf (e : Error) : Option Url := e.url

/-- Models `Error::with_url(url)`: overwrite the url, keep the rest. -/
def Error.with_url (e : Error) (url : Url) : Error := { e with url := some url }

/-- Models `Error::without_url()`: strip the url, keep the rest. -/
def Error.without_url (e : Error) : Error := { e with url := none }

/-- Models `Error::is_builder()`. -/
def Error.is_builder (e : Error) : Bool :=
  match e.kind with | .Builder => true | _ => false

/-- Models `Error::is_redirect()`. -/
def Error.is_redirect (e : Error) : Bool :=
  match e.kind with | .Redirect => true | _ => false

/-- Models `Error::is_status()`. -/
def Error.is_status (e : Error) : Bool :=
  match e.kind with | .Status _ => true | _ => false

/-- Models `Error::is_request()`. -/
def Error.is_request (e : Error) : Bool :=
  match e.kind with | .Request => true | _ => false

/-- Models `Error::is_serialization()`. -/
def Error.is_serialization (e : Error) : Bool :=
  match e.kind with | .Serialization => true | _ => false

/-- Models `Error::is_decode()`. -/
def Error.is_decode (e : Error) : Bool :=
  match e.kind with | .Decode => true | _ => false

/-- The `while let Some(err) = source` loop of `Error::is_timeout`, started
at a cause object: check `err.is::<TimedOut>()`, then move on to
`err.source()`.  Written structurally: the marker test is true only on the
`timedOut` constructor, and only `wrapS` has a source to continue into. -/
def Cause.chainTimedOut : Cause → Bool
  | .timedOut => true
  | .badScheme => false
  | .wrapS _ s => s.chainTimedOut
  | .wrapN _ => false

/-- Models `Error::is_timeout()`: walk the cause chain starting at
`self.source()` looking for the sentinel `TimedOut` marker. -/
def Error.is_timeout (e : Error) : Bool :=
  match e.source with
  | none => false
  | some c => c.chainTimedOut

/-- The list of cause objects visited by the chain walk: the object
itself, then its source, and so on. -/
def Cause.chain : Cause → List Cause
  | .timedOut => [Cause.timedOut]
  | .badScheme => [Cause.badScheme]
  | .wrapS d s => Cause.wrapS d s :: s.chain
  | .wrapN d => [Cause.wrapN d]

/-- The local cause chain of an error (the cause, the cause's cause, …):
empty when there is no cause. -/
def Error.causeChain (e : Error) : List Cause :=
  match e.source with
  | none => []
  | some c => c.chain

/-- Models `http::StatusCode::from_u16`: succeeds exactly on codes in
`100 ..= 999`. -/
def statusFromU16 (code : Nat) : Option Nat :=
  if 100 ≤ code ∧ code ≤ 999 then some code else none

/-- Models `http::StatusCode::is_client_error`: `400 ..= 499`. -/
def isClientError (s : Nat) : Bool := decide (400 ≤ s ∧ s ≤ 499)

/-- Models `Error::status()`.  The outer `Option` models partiality:
`none` is the panic of `StatusCode::from_u16(code).unwrap()` on an
out-of-range stored code; `some r` is a normal return of `r`. -/
def Error.status (e : Error) : Option (Option Nat) :=
  match e.kind with
  | .Status code =>
    match statusFromU16 code with
    | some s => some (some s)
    | none => none
  | _ => some none

/-- The fixed `Kind`-determined head of the `Display` output.  For
`Status`, the code is unwrapped first (`none` models that panic), the
message chosen by `is_client_error` on the unwrapped status — release
semantics: the `debug_assert!` in the else branch is a no-op — and the raw
`u16` printed in parentheses. -/
def Kind.headStr : Kind → Option String
  | .Builder => some ("builder error")
  | .Request => some ("error sending request")
  | .Body => some ("request or response body error")
  | .Decode => some ("error decoding response body")
  | .Redirect => some ("error following redirect")
  | .Serialization => some ("error while serialising body")
  | .Status code =>
    match statusFromU16 code with
    | none => none
    | some status =>
      let p := if isClientError status then "HTTP status client error"
               else "HTTP status server error"
      some (p ++ " (" ++ toString code ++ ")")

/-- Models `fmt::Display for Error`: the kind head, then
`" for url (<url>)"` when a url is attached, then `": <cause display>"`
when a cause is attached.  `none` models the panic on an out-of-range
`Status` code. -/
def Error.displayStr (e : Error) : Option String :=
  match e.kind.headStr with
  | none => none
  | some base =>
    let withUrl :=
      match e.url with
      | some url => base ++ " for url (" ++ url ++ ")"
      | none => base
    some (match e.source with
      | some c => withUrl ++ ": " ++ c.displayStr
      | none => withUrl)

/-- Models `impl Clone for Inner` (lifted through `Error`'s derived
`Clone`): clone the kind and the url, set `source` to `None`. -/
def Error.clone (e : Error) : Error :=
  { kind := e.kind.clone, source := none, url := e.url }

/-- The serde wire form of an `Error`: `Inner` with the `#[serde(skip)]`
`source` field absent. -/
structure WireError where
  kind : Kind
  url : Option Url
  deriving DecidableEq, Repr

/-- Serialization of an `Error`: `kind` and `url` are emitted, `source` is
skipped. -/
def serializeError (e : Error) : WireError :=
  { kind := e.kind, url := e.url }

/-- Deserialization of an `Error`: the skipped `source` field takes its
default value `None`. -/
def deserializeError (w : WireError) : Error :=
  { kind := w.kind, source := none, url := w.url }

/-- Serialize then deserialize. -/
def roundTrip (e : Error) : Error := deserializeError (serializeError e)

-- factory functions (`src/error.rs`, "constructors")

/-- Models `error::builder(e)`. -/
def builder (c : Cause) : Error := Error.new .Builder (some c)

/-- Models `error::serialization(e)`. -/
def serialization (c : Cause) : Error := Error.new .Serialization (some c)

/-- Models `error::decode(e)`. -/
def decode (c : Cause) : Error := Error.new .Decode (some c)

/-- Models `error::request(e)`. -/
def request (c : Cause) : Error := Error.new .Request (some c)

/-- Models `error::timeout(url)`. -/
def timeout (url : Url) : Error :=
  (Error.new .Request (some .timedOut)).with_url url

/-- Models `error::redirect(e, url)`. -/
def redirect (c : Cause) (url : Url) : Error :=
  (Error.new .Redirect (some c)).with_url url

/-- Models `error::status_code(url, status)`: the second argument is an
`http::StatusCode`, whose `as_u16()` is stored; `StatusCode` values are
always in `100 ..= 999`. -/
def status_code (url : Url) (s : Nat) : Error :=
  (Error.new (.Status s) none).with_url url

/-- Models `error::url_bad_scheme(url)`. -/
def url_bad_scheme (url : Url) : Error :=
  (Error.new .Builder (some .badScheme)).with_url url

/-- Whether a `Kind`'s `Status` payload (if any) is in the range
`StatusCode::from_u16` accepts. -/
def Kind.statusValid : Kind → Bool
  | .Status c => decide (100 ≤ c ∧ c ≤ 999)
  | _ => true

/-- How many of the six kind predicates hold on an error. -/
def predCount (e : Error) : Nat :=
  (if e.is_builder then 1 else 0) + (if e.is_redirect then 1 else 0) +
  (if e.is_status then 1 else 0) + (if e.is_request then 1 else 0) +
  (if e.is_serialization then 1 else 0) + (if e.is_decode then 1 else 0)

/-- The Display contract as the specification words it: a fixed head per
kind (client error iff the code is 4xx), then `" for url (<url>)"` iff a
url is attached, then `": <cause display>"` iff a cause is attached. -/
def specDisplayText (k : Kind) (url : Option Url) (cause : Option Cause) : String :=
  (match k with
   | .Builder => "builder error"
   | .Request => "error sending request"
   | .Body => "request or response body error"
   | .Decode => "error decoding response body"
   | .Redirect => "error following redirect"
   | .Serialization => "error while serialising body"
   | .Status code =>
     (if 400 ≤ code ∧ code ≤ 499 then "HTTP status client error"
      else "HTTP status server error") ++ " (" ++ toString code ++ ")")
  ++ (match url with
      | some u => " for url (" ++ u ++ ")"
      | none => "")
  ++ (match cause with
      | some c => ": " ++ c.displayStr
      | none => "")

end Nightfly

namespace Nightfly

/-- Helper: the structural chain walk finds the sentinel iff some element
of the visited list is the sentinel marker. -/
theorem chainTimedOut_iff_mem (c : Cause) :
    c.chainTimedOut = true ↔ ∃ x ∈ c.chain, x.isTimedOutMarker = true := by
  induction c with
  | timedOut => simp [Cause.chainTimedOut, Cause.chain, Cause.isTimedOutMarker]
  | badScheme => simp [Cause.chainTimedOut, Cause.chain, Cause.isTimedOutMarker]
  | wrapS d s ih =>
      simp [Cause.chainTimedOut, Cause.chain, Cause.isTimedOutMarker, ih]
  | wrapN d => simp [Cause.chainTimedOut, Cause.chain, Cause.isTimedOutMarker]

/-- C1: serializing then deserializing any `Error` preserves `kind` and
`url` exactly and leaves the cause absent, and there is an error (a
timeout error) on which `is_timeout` is true before the round trip and
false after it. -/
theorem c1_roundtrip_preserves_kind_url_drops_cause :
    (∀ e : Error, (roundTrip e).kind = e.kind ∧ (roundTrip e).urlOf = e.urlOf ∧
      (roundTrip e).source = none) ∧
    ((timeout ("http://a/")).is_timeout = true ∧
      (roundTrip (timeout ("http://a/"))).is_timeout = false) :=
  ⟨fun _ => ⟨rfl, rfl, rfl⟩, rfl, rfl⟩

/-- C2 as stated is false on the code: an `Error` of kind `Body` satisfies
none of the six predicates (`is_body` is commented out), and an `Error` of
kind `Status 1000` has `is_status` true while `status()` panics instead of
returning `Some` (so "status() returns Some iff kind is Status" fails). -/
theorem c2_counterexample :
    predCount (Error.new Kind.Body none) = 0 ∧
    ¬ ((∃ v, (Error.new (Kind.Status 1000) none).status = some (some v)) ↔
        (Error.new (Kind.Status 1000) none).is_status = true) := by
  refine ⟨rfl, fun h => ?_⟩
  rcases h.2 rfl with ⟨v, hv⟩
  have hnone : (Error.new (Kind.Status 1000) none).status = none := rfl
  rw [hnone] at hv
  exact Option.noConfusion hv

/-- C2 (amended): for every `Error` whose kind is not `Body` and whose
`Status` payload, if any, is a valid status code, exactly one of the six
kind predicates is true, and `status()` returns `Some` iff the kind is
`Status`. -/
theorem c2_exactly_one_predicate (e : Error) (hb : e.kind ≠ Kind.Body)
    (hv : e.kind.statusValid = true) :
    predCount e = 1 ∧
    ((∃ v, e.status = some (some v)) ↔ e.is_status = true) := by
  obtain ⟨k, src, url⟩ := e
  cases k with
  | Body => exact absurd rfl hb
  | Status c =>
      have hc : 100 ≤ c ∧ c ≤ 999 := by simpa [Kind.statusValid] using hv
      refine ⟨rfl, ?_⟩
      constructor
      · intro _; rfl
      · intro _
        refine ⟨c, ?_⟩
        simp [Error.status, statusFromU16, hc.1, hc.2]
  | Builder =>
      exact ⟨rfl, by simp [Error.status, Error.is_status]⟩
  | Request =>
      exact ⟨rfl, by simp [Error.status, Error.is_status]⟩
  | Redirect =>
      exact ⟨rfl, by simp [Error.status, Error.is_status]⟩
  | Decode =>
      exact ⟨rfl, by simp [Error.status, Error.is_status]⟩
  | Serialization =>
      exact ⟨rfl, by simp [Error.status, Error.is_status]⟩

/-- Witness for C2: the amended statement, instantiated at a `Status 404`
error. -/
theorem c2_exactly_one_predicate_witness :
    predCount (Error.new (Kind.Status 404) none) = 1 ∧
    ((∃ v, (Error.new (Kind.Status 404) none).status = some (some v)) ↔
      (Error.new (Kind.Status 404) none).is_status = true) :=
  c2_exactly_one_predicate (Error.new (Kind.Status 404) none)
    (by decide) (by decide)

/-- C3: `is_timeout` is true iff some element of the local cause chain is
the sentinel `TimedOut` marker; in particular it is false when no element
is the marker, including when there is no cause at all. -/
theorem c3_is_timeout_iff_chain_marker (e : Error) :
    e.is_timeout = true ↔ ∃ c ∈ e.causeChain, c.isTimedOutMarker = true := by
  cases h : e.source with
  | none => simp [Error.is_timeout, Error.causeChain, h]
  | some c => simp [Error.is_timeout, Error.causeChain, h, chainTimedOut_iff_mem]

/-- C4: for every URL `u`, `timeout u` has kind `Request` (`is_request`),
its cause is the sentinel `TimedOut` marker (so `is_timeout` holds while
the chain is attached), and its url is `Some u`. -/
theorem c4_timeout_factory (u : Url) :
    (timeout u).is_request = true ∧
    (timeout u).source = some Cause.timedOut ∧
    (timeout u).is_timeout = true ∧
    (timeout u).urlOf = some u :=
  ⟨rfl, rfl, rfl, rfl⟩

/-- C5 as stated (over every `Error` value) is false: an error whose
stored `Status` code is out of range — constructible by deserialization,
which accepts any `u16` — produces no display string at all: `Display`
panics in `StatusCode::from_u16(code).unwrap()`. -/
theorem c5_display_counterexample :
    (Error.new (Kind.Status 1000) none).displayStr = none ∧
    (Error.new (Kind.Status 1000) none).displayStr ≠
      some (specDisplayText (Kind.Status 1000) none none) := by
  refine ⟨rfl, fun h => ?_⟩
  have h0 : (Error.new (Kind.Status 1000) none).displayStr = none := rfl
  rw [h0] at h
  exact Option.noConfusion h

/-- C5 (amended): on every `Error` whose `Status` payload, if any, is a
valid status code (true of all errors the factories build), the `Display`
output is exactly the specification's template: the kind-determined head,
then `" for url (<url>)"` iff a url is attached, then `": <cause display>"`
iff a cause is attached. -/
theorem c5_display_contract (e : Error) (hv : e.kind.statusValid = true) :
    e.displayStr = some (specDisplayText e.kind e.url e.source) := by
  obtain ⟨k, src, url⟩ := e
  cases k with
  | Status c =>
      have hc : 100 ≤ c ∧ c ≤ 999 := by simpa [Kind.statusValid] using hv
      have h1 : statusFromU16 c = some c := by simp [statusFromU16, hc.1, hc.2]
      cases src <;> cases url <;>
        simp [Error.displayStr, Kind.headStr, h1, specDisplayText, isClientError,
          String.append_empty, ← String.append_assoc]
  | Builder =>
      cases src <;> cases url <;>
        simp [Error.displayStr, Kind.headStr, specDisplayText,
          String.append_empty, ← String.append_assoc]
  | Request =>
      cases src <;> cases url <;>
        simp [Error.displayStr, Kind.headStr, specDisplayText,
          String.append_empty, ← String.append_assoc]
  | Redirect =>
      cases src <;> cases url <;>
        simp [Error.displayStr, Kind.headStr, specDisplayText,
          String.append_empty, ← String.append_assoc]
  | Body =>
      cases src <;> cases url <;>
        simp [Error.displayStr, Kind.headStr, specDisplayText,
          String.append_empty, ← String.append_assoc]
  | Decode =>
      cases src <;> cases url <;>
        simp [Error.displayStr, Kind.headStr, specDisplayText,
          String.append_empty, ← String.append_assoc]
  | Serialization =>
      cases src <;> cases url <;>
        simp [Error.displayStr, Kind.headStr, specDisplayText,
          String.append_empty, ← String.append_assoc]

/-- Witness for C5: the display contract instantiated at a timeout error
with a url and the sentinel cause attached. -/
theorem c5_display_contract_witness :
    (timeout ("http://a/")).displayStr =
      some (specDisplayText (timeout ("http://a/")).kind
        (timeout ("http://a/")).url (timeout ("http://a/")).source) :=
  c5_display_contract (timeout ("http://a/")) (by decide)

/-- C6: `with_url` only overwrites the url with `Some u`, and
`without_url` only clears it; kind and cause chain are unchanged. -/
theorem c6_with_url_without_url (e : Error) (u : Url) :
    e.with_url u = { kind := e.kind, source := e.source, url := some u } ∧
    e.without_url = { kind := e.kind, source := e.source, url := none } :=
  ⟨rfl, rfl⟩

/-- C7: for every URL `u` and valid status code `s`, `status_code u s` has
kind `Status s` (`is_status` true, `status()` returning `Some s`), url
`Some u`, and no cause — hence `is_timeout` is false and the display
string ends after the url part, with no cause suffix. -/
theorem c7_status_code_factory (u : Url) (s : Nat)
    (h1 : 100 ≤ s) (h2 : s ≤ 999) :
    (status_code u s).is_status = true ∧
    (status_code u s).status = some (some s) ∧
    (status_code u s).urlOf = some u ∧
    (status_code u s).source = none ∧
    (status_code u s).is_timeout = false ∧
    (status_code u s).displayStr =
      some ((if isClientError s then "HTTP status client error"
             else "HTTP status server error") ++
            " (" ++ toString s ++ ")" ++ " for url (" ++ u ++ ")") := by
  have h1' : statusFromU16 s = some s := by simp [statusFromU16, h1, h2]
  refine ⟨rfl, ?_, rfl, rfl, rfl, ?_⟩
  · simp [status_code, Error.status, Error.new, Error.with_url, h1']
  · simp [status_code, Error.displayStr, Kind.headStr, Error.new,
      Error.with_url, h1']

/-- Witness for C7: the factory contract instantiated at status 404. -/
theorem c7_status_code_factory_witness :
    (status_code ("http://example.com/") 404).is_status = true ∧
    (status_code ("http://example.com/") 404).status = some (some 404) ∧
    (status_code ("http://example.com/") 404).urlOf = some ("http://example.com/") ∧
    (status_code ("http://example.com/") 404).source = none ∧
    (status_code ("http://example.com/") 404).is_timeout = false ∧
    (status_code ("http://example.com/") 404).displayStr =
      some ((if isClientError 404 then "HTTP status client error"
             else "HTTP status server error") ++
            " (" ++ toString 404 ++ ")" ++ " for url (" ++ "http://example.com/" ++ ")") :=
  c7_status_code_factory ("http://example.com/") 404 (by decide) (by decide)

/-- C8: for every URL `u`, `url_bad_scheme u` has kind `Builder`
(`is_builder` true), url `Some u`, and the fixed `BadScheme` cause, which
displays "URL scheme is not allowed". -/
theorem c8_url_bad_scheme_factory (u : Url) :
    (url_bad_scheme u).is_builder = true ∧
    (url_bad_scheme u).urlOf = some u ∧
    (url_bad_scheme u).source = some Cause.badScheme ∧
    Cause.displayStr Cause.badScheme = "URL scheme is not allowed" :=
  ⟨rfl, rfl, rfl, rfl⟩

/-- C9: cloning any `Error` keeps its kind and url but sets the cause to
`None`, so `is_timeout` on a clone is always false — even for a timeout
error, on which `is_timeout` is true before cloning. -/
theorem c9_clone_drops_cause :
    (∀ e : Error, e.clone.kind = e.kind ∧ e.clone.urlOf = e.urlOf ∧
      e.clone.source = none ∧ e.clone.is_timeout = false) ∧
    ((timeout ("http://a/")).is_timeout = true ∧
      (timeout ("http://a/")).clone.is_timeout = false) :=
  ⟨fun _ => ⟨rfl, rfl, rfl, rfl⟩, rfl, rfl⟩

/-- C10: on every `Error` whose stored `Status` code is a valid status
code, `status()` and `Display` take no panic branch — in particular every
error built by `status_code` (whose argument is a `StatusCode`, hence
valid) — but the kind stores a raw `u16`, deserialization accepts any
`u16`, and on an out-of-range code `status()` panics. -/
theorem c10_status_unwrap_panic :
    (∀ e : Error, ∀ c : Nat, e.kind = Kind.Status c → 100 ≤ c → c ≤ 999 →
      e.status = some (some c) ∧ (e.displayStr).isSome = true) ∧
    (∀ u : Url, ∀ s : Nat, 100 ≤ s → s ≤ 999 →
      (status_code u s).status = some (some s)) ∧
    Error.status (Error.new (Kind.Status 1000) none) = none ∧
    (deserializeError { kind := Kind.Status 1000, url := none }).status = none := by
  refine ⟨?_, ?_, rfl, rfl⟩
  · intro e c hk h1 h2
    have h1' : statusFromU16 c = some c := by simp [statusFromU16, h1, h2]
    constructor
    · simp [Error.status, hk, h1']
    · simp [Error.displayStr, Kind.headStr, hk, h1']
  · intro u s h1 h2
    have h1' : statusFromU16 s = some s := by simp [statusFromU16, h1, h2]
    simp [status_code, Error.status, Error.new, Error.with_url, h1']

/-- Witness for C10: no panic at stored code 404, panic at stored code
1000. -/
theorem c10_status_unwrap_panic_witness :
    Error.status (Error.new (Kind.Status 404) none) = some (some 404) ∧
    Error.status (Error.new (Kind.Status 1000) none) = none :=
  ⟨(c10_status_unwrap_panic.1 (Error.new (Kind.Status 404) none) 404 rfl
      (by decide) (by decide)).1,
    c10_status_unwrap_panic.2.2.1⟩

end Nightfly
